import Mathlib

/-!
Shallow embedding of the Kafka producer of bottledwater-pg
(src/kafka/bottledwater.c): the in-flight transaction ring, the
checkpointer, the send path, the delivery callback, the keepalive
callback and the topic-name computation, together with an event-level
small-step semantics used to study whole event sequences.

Machine integers: the C event counters (int) are modelled as Int,
WAL positions (uint64) and transaction ids (uint32) as Nat; none of
the verified properties depends on integer overflow, which the
involved quantities cannot reach.

Logging is modelled only where a property mentions it: the log_warn
call of maybe_checkpoint ("Commits not in WAL order!") is counted by
the second component of checkpoint_go.
-/

/-- The constant MAX_IN_FLIGHT_TRANSACTIONS of bottledwater.c. -/
def MAX_IN_FLIGHT_TRANSACTIONS : Nat := 1000

/-- The constant XACT_LIST_LEN of bottledwater.c: one extra empty
element so the circular buffer can distinguish between empty and
full. -/
def XACT_LIST_LEN : Nat := MAX_IN_FLIGHT_TRANSACTIONS + 1

/-- The constant TABLE_NAME_BUFFER_LENGTH of bottledwater.c. -/
def TABLE_NAME_BUFFER_LENGTH : Nat := 128

/-- The enum format_t of bottledwater.c. -/
inductive format_t
  | undefined
  | avro
  | json
deriving DecidableEq

/-- The enum error_policy_t of bottledwater.c. -/
inductive error_policy_t
  | undefined
  | log
  | exit
deriving DecidableEq

/-- The struct transaction_info of bottledwater.c. -/
structure transaction_info where
  xid : Nat
  recvd_events : Int
  pending_events : Int
  commit_lsn : Nat
deriving DecidableEq

/-- The struct producer_context of bottledwater.c, restricted to the
fields the verified functions touch, together with the two fields of
the client that the producer writes (client->repl.fsync_lsn and
client->taking_snapshot). The circular buffer is a total function on
indices; only indices below XACT_LIST_LEN are ever produced by the
code, mirroring the C array. -/
structure producer_context where
  xact_list : Nat → transaction_info
  xact_head : Nat
  xact_tail : Nat
  fsync_lsn : Nat
  taking_snapshot : Bool
  error_policy : error_policy_t
  output_format : format_t

/-- The function xact_list_length of bottledwater.c. -/
def xact_list_length (c : producer_context) : Nat :=
  (XACT_LIST_LEN + c.xact_head + 1 - c.xact_tail) % XACT_LIST_LEN

/-- The function xact_list_full of bottledwater.c. -/
def xact_list_full (c : producer_context) : Bool :=
  xact_list_length c == XACT_LIST_LEN - 1

/-- The function xact_list_empty of bottledwater.c. -/
def xact_list_empty (c : producer_context) : Bool :=
  xact_list_length c == 0

/-- Assignment xact_list[i] = v on the circular buffer. -/
def upd_slot (f : Nat → transaction_info) (i : Nat) (v : transaction_info) :
    Nat → transaction_info :=
  fun j => if j = i then v else f j

/-- The guard of the while loop of maybe_checkpoint: the tail slot has
pending_events == 0 and (commit_lsn > 0 or xid == 0). -/
abbrev drain_cond (c : producer_context) : Prop :=
  (c.xact_list c.xact_tail).pending_events = 0 ∧
    (0 < (c.xact_list c.xact_tail).commit_lsn ∨ (c.xact_list c.xact_tail).xid = 0)

/-- The state change of one iteration of the maybe_checkpoint loop:
set fsync_lsn to the tail slot's commit_lsn, clear the
snapshot-in-progress flag when xid == 0 and the commit has been
observed, advance the tail modulo XACT_LIST_LEN. -/
def drain_step (c : producer_context) : producer_context :=
  { c with
    fsync_lsn := (c.xact_list c.xact_tail).commit_lsn,
    taking_snapshot :=
      if (c.xact_list c.xact_tail).xid = 0 ∧ 0 < (c.xact_list c.xact_tail).commit_lsn then
        false
      else c.taking_snapshot,
    xact_tail := (c.xact_tail + 1) % XACT_LIST_LEN }

/-- The log_warn of maybe_checkpoint ("Commits not in WAL order!"),
emitted when fsync_lsn > commit_lsn of the tail slot, counted. -/
def warn_upd (c : producer_context) (w : Nat) : Nat :=
  if (c.xact_list c.xact_tail).commit_lsn < c.fsync_lsn then w + 1 else w

/-- The while loop of maybe_checkpoint, with explicit fuel. Each
iteration advances the tail and the loop breaks as soon as the ring
reports empty, so XACT_LIST_LEN iterations always suffice (this is
proved below as checkpoint_go_fuel). The second component counts the
"Commits not in WAL order!" warnings. -/
def checkpoint_go : Nat → producer_context → Nat → producer_context × Nat
  | 0, c, w => (c, w)
  | fuel+1, c, w =>
    if drain_cond c then
      if xact_list_empty (drain_step c) then (drain_step c, warn_upd c w)
      else checkpoint_go fuel (drain_step c) (warn_upd c w)
    else (c, w)

/-- The function maybe_checkpoint of bottledwater.c. -/
def maybe_checkpoint (c : producer_context) : producer_context :=
  (checkpoint_go XACT_LIST_LEN c 0).1

/-- Number of "Commits not in WAL order!" warnings logged by a single
call of maybe_checkpoint. -/
def checkpoint_warn_count (c : producer_context) : Nat :=
  (checkpoint_go XACT_LIST_LEN c 0).2

/-- Result of on_begin_txn: the function either fails fatally
(exit_nicely), is still blocked inside the backpressure loop when the
model's fuel runs out, or returns having appended the transaction. -/
inductive begin_res
  | fatal
  | blocked
  | ok (c : producer_context)

/-- Discriminator of begin_res used by concrete evaluations. -/
def begin_res.is_fatal : begin_res → Bool
  | .fatal => true
  | _ => false

/-- The while (xact_list_full) backpressure loop at the start of
on_begin_txn. The effect of one backpressure() call on the context
(delivery callbacks run during rd_kafka_poll) is the oracle bp; the
fuel bounds how many iterations the model performs, where the real
loop blocks until the ring drains. -/
def begin_wait_loop :
    Nat → (producer_context → producer_context) → producer_context → Option producer_context
  | 0, _, c => if xact_list_full c then none else some c
  | fuel+1, bp, c =>
    if xact_list_full c then begin_wait_loop fuel bp (bp c) else some c

/-- Advancing the head and initialising the new slot, as done by
on_begin_txn after the backpressure loop. -/
def append_txn (c : producer_context) (xid : Nat) : producer_context :=
  { c with
    xact_head := (c.xact_head + 1) % XACT_LIST_LEN,
    xact_list := upd_slot c.xact_list ((c.xact_head + 1) % XACT_LIST_LEN)
      ({ xid := xid, recvd_events := 0, pending_events := 0, commit_lsn := 0 }) }

/-- The function on_begin_txn of bottledwater.c: if xid == 0 the ring
must be empty with tail == 0, otherwise the call is fatal ("Expected
snapshot to be the first transaction."); then the backpressure loop
runs while the ring is full, and finally the transaction is appended
at the advanced head. -/
def on_begin_txn (fuel : Nat) (bp : producer_context → producer_context)
    (c : producer_context) (wal_pos xid : Nat) : begin_res :=
  if xid = 0 ∧ ¬(c.xact_tail = 0 ∧ xact_list_empty c = true) then .fatal
  else
    match begin_wait_loop fuel bp c with
    | none => .blocked
    | some c' => .ok (append_txn c' xid)

/-- Result of on_commit_txn. -/
inductive commit_res
  | fatal
  | ok (c : producer_context)

/-- Discriminator of commit_res used by concrete evaluations. -/
def commit_res.is_fatal : commit_res → Bool
  | .fatal => true
  | _ => false

/-- The function on_commit_txn of bottledwater.c: the slot at the head
must carry the committed xid, otherwise the mismatch is fatal; then
commit_lsn is recorded and maybe_checkpoint runs. -/
def on_commit_txn (c : producer_context) (wal_pos xid : Nat) : commit_res :=
  if xid ≠ (c.xact_list c.xact_head).xid then .fatal
  else
    .ok (maybe_checkpoint
      { c with xact_list := upd_slot c.xact_list c.xact_head
                              ({ (c.xact_list c.xact_head) with commit_lsn := wal_pos }) })

/-- Modelled from the spec: the constant FRAME_READER_SYNC_PENDING is
defined in the frame-reader protocol header, which is not under src/;
the spec only requires it to be a distinguished nonzero return code
("do not advance acknowledgement"), so the model fixes an arbitrary
nonzero value. -/
def FRAME_READER_SYNC_PENDING : Int := 1

/-- The function on_keepalive of bottledwater.c. It reads the ring and
returns a code; it writes nothing, which the embedding renders by
returning only the code. -/
def on_keepalive (c : producer_context) (wal_pos : Nat) : Int :=
  if xact_list_empty c then 0 else FRAME_READER_SYNC_PENDING

/-- Payload bytes. -/
abbrev Bytes := List Nat

/-- The msg_envelope of bottledwater.c together with the message data
handed to rd_kafka_produce: slot is the index of envelope->xact in
xact_list, key and val are the encoded buffers (NULL pointers are
none). -/
structure kafka_message where
  slot : Nat
  wal_pos : Nat
  relid : Nat
  key : Option Bytes
  val : Option Bytes
deriving DecidableEq

/-- System state: the producer context plus the multiset (as a list)
of slots of the envelopes enqueued to the broker and not yet
delivered. -/
structure sys_state where
  ctx : producer_context
  inflight : List Nat

/-- Outcome of one rd_kafka_produce attempt: success, queue full
(errno RD_KAFKA_RESP_ERR__QUEUE_FULL, retried after backpressure), or
any other produce error (rd_kafka_produce returns -1). -/
inductive produce_outcome
  | ok
  | queue_full
  | err_other
deriving DecidableEq

/-- Environment of one call into the send path, standing for the parts
of the repository outside src/: lookup is whether table_mapper_lookup
finds the relation, enc_ret the return value of json_encode_msg or
schema_registry_encode_msg (0 is success, exactly as the code checks
it), frame_key and frame_val the encoding of a present key or value
buffer. Modelled from the spec: the encoders (json.c, registry.c, not
under src/) pass a nil key or value through as a nil payload and turn
a present one into a present encoded buffer, so the encoding maps over
the option. outcomes drives the rd_kafka_produce attempts and bp is
the effect of one backpressure() call on the system state. -/
structure producer_env where
  lookup : Nat → Bool
  enc_ret : Int
  frame_key : Bytes → Bytes
  frame_val : Bytes → Bytes
  outcomes : List produce_outcome
  bp : sys_state → sys_state

/-- Result of send_kafka_msg: the returned error code together with
the state and the enqueued message if any; blocked means the model's
produce outcomes ran out while the queue stayed full; fatal is the
invalid-output-format arm of the switch. -/
inductive send_res
  | ok (s : sys_state) (ret : Int) (sent : Option kafka_message)
  | blocked
  | fatal

/-- The two increments at the top of send_kafka_msg:
xact->recvd_events++ and xact->pending_events++ on the slot at the
head. -/
def inc_events (s : sys_state) (i : Nat) : sys_state :=
  { s with ctx := { s.ctx with xact_list := upd_slot s.ctx.xact_list i
                                              ({ (s.ctx.xact_list i) with
                                                 recvd_events := (s.ctx.xact_list i).recvd_events + 1,
                                                 pending_events := (s.ctx.xact_list i).pending_events + 1 }) } }

/-- The enqueue retry loop of send_kafka_msg: on success the envelope
goes in flight and 0 is returned; on queue-full the loop applies
backpressure and retries; on any other error the code logs, frees the
buffers and returns the produce error (-1), without enqueueing. -/
def produce_loop :
    List produce_outcome → (sys_state → sys_state) → sys_state → kafka_message → send_res
  | [], _, _, _ => .blocked
  | o :: rest, bp, s, m =>
    match o with
    | .ok => .ok { s with inflight := s.inflight ++ [m.slot] } 0 (some m)
    | .queue_full => produce_loop rest bp (bp s) m
    | .err_other => .ok s (-1) none

/-- The function send_kafka_msg of bottledwater.c. Note the order of
the source: the counters are incremented first, before the relation
lookup (return 1 when unknown), the format switch (fatal when
undefined), the encoding (return the encoder's nonzero error), and the
enqueue loop. -/
def send_kafka_msg (env : producer_env) (s : sys_state) (wal_pos relid : Nat)
    (key val : Option Bytes) : send_res :=
  let s1 := inc_events s s.ctx.xact_head
  if env.lookup relid = false then .ok s1 1 none
  else if s.ctx.output_format = .undefined then .fatal
  else if env.enc_ret ≠ 0 then .ok s1 env.enc_ret none
  else
    produce_loop env.outcomes env.bp s1
      { slot := s.ctx.xact_head, wal_pos := wal_pos, relid := relid,
        key := key.map env.frame_key, val := val.map env.frame_val }

/-- The function on_insert_row of bottledwater.c (the TTA_VNV audit
logging is compiled out by default and does not alter the data
path). -/
def on_insert_row (env : producer_env) (s : sys_state) (wal_pos relid : Nat)
    (key newv : Option Bytes) : send_res :=
  send_kafka_msg env s wal_pos relid key newv

/-- The function on_update_row of bottledwater.c. -/
def on_update_row (env : producer_env) (s : sys_state) (wal_pos relid : Nat)
    (key oldv newv : Option Bytes) : send_res :=
  send_kafka_msg env s wal_pos relid key newv

/-- The function on_delete_row of bottledwater.c: with a key the row
is sent with a NULL value buffer; with no key the callback returns 0
without doing anything. -/
def on_delete_row (env : producer_env) (s : sys_state) (wal_pos relid : Nat)
    (key oldv : Option Bytes) : send_res :=
  match key with
  | some k => send_kafka_msg env s wal_pos relid (some k) none
  | none => .ok s 0 none

/-- The decrement envelope->xact->pending_events-- of
on_deliver_msg. -/
def dec_pending (c : producer_context) (i : Nat) : producer_context :=
  { c with xact_list := upd_slot c.xact_list i
                          ({ (c.xact_list i) with pending_events := (c.xact_list i).pending_events - 1 }) }

/-- The acknowledged-delivery path of on_deliver_msg: decrement the
owning transaction's pending_events, run maybe_checkpoint, and free
the envelope (it leaves the in-flight multiset). -/
def ack_envelope (s : sys_state) (i : Nat) : sys_state :=
  { ctx := maybe_checkpoint (dec_pending s.ctx i), inflight := s.inflight.erase i }

/-- Result of on_deliver_msg: either the callback returns (envelope
freed), or handle_error terminated the process. -/
inductive deliver_res
  | next (s : sys_state)
  | fatal

/-- The function on_deliver_msg of bottledwater.c (with handle_error
inlined): on success err = 0; on failure handle_error applies the
error policy, returning 0 under "log" and exiting under "exit" (and
under the undefined policy, through the fatal default arm). When err
ends up 0, pending_events is decremented and maybe_checkpoint runs;
the envelope is freed at the end of the callback on every path that
reaches it. -/
def on_deliver_msg (s : sys_state) (i : Nat) (success : Bool) : deliver_res :=
  if success then .next (ack_envelope s i)
  else
    match s.ctx.error_policy with
    | .log => .next (ack_envelope s i)
    | .exit => .fatal
    | .undefined => .fatal

/-- Closure of acknowledged delivery-callback steps: every state
reachable from s by delivering (successfully, or failing under the
"log" policy, which acknowledges too) envelopes that are actually in
flight. -/
inductive deliver_reach : sys_state → sys_state → Prop
  | refl (s : sys_state) : deliver_reach s s
  | step (s : sys_state) (i : Nat) (t : sys_state) :
      i ∈ s.inflight → deliver_reach (ack_envelope s i) t → deliver_reach s t

/-- Events of the replication stream and of the broker, as seen by the
producer's callbacks. -/
inductive event
  | begin_txn (wal_pos xid : Nat)
  | commit_txn (wal_pos xid : Nat)
  | insert_row (wal_pos relid : Nat) (key newv : Option Bytes)
  | update_row (wal_pos relid : Nat) (key oldv newv : Option Bytes)
  | delete_row (wal_pos relid : Nat) (key oldv : Option Bytes)
  | keepalive (wal_pos : Nat)
  | deliver (i : Nat) (success : Bool)

/-- One event of the small-step semantics. none means the run stops: a
fatal error, a ring-full begin (which in the real code blocks inside
backpressure until deliveries arrive; the model requires the
deliveries as explicit events), a blocked or fatal send, or a delivery
for an envelope that is not in flight. -/
def step_event (env : producer_env) (s : sys_state) : event → Option sys_state
  | .begin_txn _ x =>
    if x = 0 ∧ ¬(s.ctx.xact_tail = 0 ∧ xact_list_empty s.ctx = true) then none
    else if xact_list_full s.ctx then none
    else some { s with ctx := append_txn s.ctx x }
  | .commit_txn w x =>
    match on_commit_txn s.ctx w x with
    | .fatal => none
    | .ok c => some { s with ctx := c }
  | .insert_row w r k v =>
    match on_insert_row env s w r k v with
    | .ok s' _ _ => some s'
    | _ => none
  | .update_row w r k ov nv =>
    match on_update_row env s w r k ov nv with
    | .ok s' _ _ => some s'
    | _ => none
  | .delete_row w r k ov =>
    match on_delete_row env s w r k ov with
    | .ok s' _ _ => some s'
    | _ => none
  | .keepalive _ => some s
  | .deliver i success =>
    if i ∈ s.inflight then
      match on_deliver_msg s i success with
      | .next t => some t
      | .fatal => none
    else none

/-- Running a list of events from a state. -/
def run_events (env : producer_env) : sys_state → List event → Option sys_state
  | s, [] => some s
  | s, e :: rest =>
    match step_event env s e with
    | some s' => run_events env s' rest
    | none => none

/-- The C isspace predicate (C locale), as used by the %s conversion
of sscanf. -/
def is_space_c (ch : Char) : Bool :=
  ch.toNat == 32 || (decide (9 ≤ ch.toNat) && decide (ch.toNat ≤ 13))

/-- The call sscanf(ns, GENERATED_SCHEMA_NAMESPACE ".%s", buf) of
topic_name_from_avro_schema, over an arbitrary generated-namespace
string gen (the macro GENERATED_SCHEMA_NAMESPACE lives in oid2avro.h,
not under src/; the model is parametric in it and is faithful for a
macro value without whitespace or conversion characters). The result
is some tok when the conversion assigns (matched == 1): the namespace
starts with gen followed by a dot and a nonempty whitespace-free token
follows. It is none otherwise; of the C outcomes only matched == 0 (a
literal mismatch with input remaining, i.e. ns neither extends
gen ++ "." nor is a prefix of it) behaves like the none result, while
the matched == EOF inputs (ns a proper prefix of gen ++ ".", or
nothing but whitespace after it) make the C code read an uninitialised
buffer (undefined behaviour). The theorems below therefore restrict
their mismatch statements by hypotheses to the matched == 0 inputs and
never range over the EOF inputs. -/
def sscanf_ns (gen ns : List Char) : Option (List Char) :=
  if (gen ++ ['.']).isPrefixOf ns then
    let rest := (ns.drop (gen.length + 1)).dropWhile is_space_c
    if rest.isEmpty then none
    else some (rest.takeWhile (fun ch => !is_space_c ch))
  else none

/-- The call strncat(dst, src, TABLE_NAME_BUFFER_LENGTH - strlen(dst)
- 1) of topic_name_from_avro_schema: append at most that many source
characters (strncat always terminates the result). The size argument
uses truncated Nat subtraction, which agrees with the C size_t value
on every input on which the C code is defined, i.e. whenever dst fits
the buffer. -/
def strncat_c (dst src : List Char) : List Char :=
  dst ++ src.take (TABLE_NAME_BUFFER_LENGTH - dst.length - 1)

/-- The function topic_name_from_avro_schema of bottledwater.c, on the
AVRO_1_8 path, over character lists: when the sscanf conversion fails
or extracts "public", strncpy copies the table name clamped to the
buffer with a forced terminator; otherwise the extracted schema name
is extended by strncat with "." and then with the table name, each
call keeping the buffer within TABLE_NAME_BUFFER_LENGTH bytes
including the terminator. -/
def topic_name_from_avro_schema (gen table_name ns : List Char) : List Char :=
  match sscanf_ns gen ns with
  | some tok =>
    if tok = "public".toList then table_name.take (TABLE_NAME_BUFFER_LENGTH - 1)
    else strncat_c (strncat_c tok ['.']) table_name
  | none => table_name.take (TABLE_NAME_BUFFER_LENGTH - 1)

/-- A zeroed transaction_info, as left by memset in init_producer. -/
def init_txn_info : transaction_info :=
  { xid := 0, recvd_events := 0, pending_events := 0, commit_lsn := 0 }

/-- The producer context as set up by init_producer: memset zeroes
everything (tail 0, zeroed slots, snapshot flag clear), then xact_head
is set to XACT_LIST_LEN - 1 so the ring starts out empty, and the
defaults are the "exit" error policy and the Avro output format. -/
def init_producer_ctx : producer_context :=
  { xact_list := fun _ => init_txn_info,
    xact_head := XACT_LIST_LEN - 1,
    xact_tail := 0,
    fsync_lsn := 0,
    taking_snapshot := false,
    error_policy := .exit,
    output_format := .avro }

/-- Initial system state: fresh context, nothing in flight. -/
def init_sys : sys_state := { ctx := init_producer_ctx, inflight := [] }

/-- Environment in which no relation has a registered schema. -/
def env0 : producer_env :=
  { lookup := fun _ => false, enc_ret := 0, frame_key := id, frame_val := id,
    outcomes := [], bp := id }

/-- Environment in which the lookup and the encoding succeed and the
single produce attempt fails with a non-queue-full error. -/
def env1 : producer_env :=
  { lookup := fun _ => true, enc_ret := 0, frame_key := id, frame_val := id,
    outcomes := [.err_other], bp := id }

/-- Environment in which the lookup, the encoding and the single
produce attempt all succeed. -/
def env2 : producer_env :=
  { lookup := fun _ => true, enc_ret := 0, frame_key := id, frame_val := id,
    outcomes := [.ok], bp := id }

/-- A context whose tail transaction has committed at LSN 50 while
fsync_lsn is already at 100. -/
def ctx_regress : producer_context :=
  { init_producer_ctx with
    xact_list := upd_slot (fun _ => init_txn_info) 0
      ({ xid := 9, recvd_events := 1, pending_events := 0, commit_lsn := 50 }),
    xact_head := 0,
    xact_tail := 0,
    fsync_lsn := 100 }

/-- A context whose single transaction has committed at LSN 272 with
all events acknowledged. -/
def ctx_commit : producer_context :=
  { init_producer_ctx with
    xact_list := upd_slot (fun _ => init_txn_info) 0
      ({ xid := 7, recvd_events := 1, pending_events := 0, commit_lsn := 272 }),
    xact_head := 0,
    xact_tail := 0 }

/-- A system state under the "log" error policy with one envelope of
slot 0 in flight. -/
def sys_log : sys_state :=
  { ctx := { init_producer_ctx with
      error_policy := .log,
      xact_list := upd_slot (fun _ => init_txn_info) 0
        ({ xid := 3, recvd_events := 1, pending_events := 1, commit_lsn := 0 }),
      xact_head := 0,
      xact_tail := 0 },
    inflight := [0] }

/-! Helper lemmas about the ring length and the checkpoint loop. -/

lemma XACT_LIST_LEN_eq : XACT_LIST_LEN = 1000 + 1 := rfl

lemma xact_list_length_lt (c : producer_context) : xact_list_length c < XACT_LIST_LEN := by
  unfold xact_list_length
  exact Nat.mod_lt _ (by decide)

lemma upd_slot_same (f : Nat → transaction_info) (i : Nat) (v : transaction_info) :
    upd_slot f i v i = v := by
  unfold upd_slot
  rw [if_pos rfl]

lemma upd_slot_other (f : Nat → transaction_info) (i : Nat) (v : transaction_info)
    (j : Nat) (h : j ≠ i) : upd_slot f i v j = f j := by
  unfold upd_slot
  rw [if_neg h]

lemma drain_step_xact_head (c : producer_context) :
    (drain_step c).xact_head = c.xact_head := rfl

lemma drain_step_xact_tail (c : producer_context) :
    (drain_step c).xact_tail = (c.xact_tail + 1) % XACT_LIST_LEN := rfl

lemma drain_step_xact_list (c : producer_context) :
    (drain_step c).xact_list = c.xact_list := rfl

lemma drain_step_fsync (c : producer_context) :
    (drain_step c).fsync_lsn = (c.xact_list c.xact_tail).commit_lsn := rfl

lemma drain_step_snapshot (c : producer_context) :
    (drain_step c).taking_snapshot =
      if (c.xact_list c.xact_tail).xid = 0 ∧ 0 < (c.xact_list c.xact_tail).commit_lsn then
        false
      else c.taking_snapshot := rfl

lemma xact_list_length_drain_step (c : producer_context)
    (hh : c.xact_head < XACT_LIST_LEN) (ht : c.xact_tail < XACT_LIST_LEN) :
    xact_list_length (drain_step c) =
      if xact_list_length c = 0 then XACT_LIST_LEN - 1 else xact_list_length c - 1 := by
  unfold xact_list_length
  rw [drain_step_xact_head, drain_step_xact_tail]
  rw [XACT_LIST_LEN_eq] at hh ht ⊢
  split
  · omega
  · omega

lemma checkpoint_go_succ (fuel : Nat) (c : producer_context) (w : Nat) :
    checkpoint_go (fuel + 1) c w =
      if drain_cond c then
        if xact_list_empty (drain_step c) then (drain_step c, warn_upd c w)
        else checkpoint_go fuel (drain_step c) (warn_upd c w)
      else (c, w) := rfl

lemma checkpoint_go_fst (fuel : Nat) (c : producer_context) (w w' : Nat) :
    (checkpoint_go fuel c w).1 = (checkpoint_go fuel c w').1 := by
  induction fuel generalizing c w w' with
  | zero => rfl
  | succ fuel ih =>
    rw [checkpoint_go_succ, checkpoint_go_succ]
    by_cases hc : drain_cond c
    · rw [if_pos hc, if_pos hc]
      by_cases he : xact_list_empty (drain_step c) = true
      · rw [if_pos he, if_pos he]
      · rw [if_neg he, if_neg he]
        exact ih _ _ _
    · rw [if_neg hc, if_neg hc]

lemma checkpoint_go_warn_le (fuel : Nat) (c : producer_context) (w : Nat) :
    w ≤ (checkpoint_go fuel c w).2 := by
  induction fuel generalizing c w with
  | zero => exact Nat.le_refl w
  | succ fuel ih =>
    rw [checkpoint_go_succ]
    have hw : w ≤ warn_upd c w := by
      unfold warn_upd
      split
      · omega
      · omega
    by_cases hc : drain_cond c
    · rw [if_pos hc]
      by_cases he : xact_list_empty (drain_step c) = true
      · rw [if_pos he]
        exact hw
      · rw [if_neg he]
        exact Nat.le_trans hw (ih _ _)
    · rw [if_neg hc]

lemma checkpoint_go_xact_list (fuel : Nat) (c : producer_context) (w : Nat) :
    (checkpoint_go fuel c w).1.xact_list = c.xact_list := by
  induction fuel generalizing c w with
  | zero => rfl
  | succ fuel ih =>
    rw [checkpoint_go_succ]
    by_cases hc : drain_cond c
    · rw [if_pos hc]
      by_cases he : xact_list_empty (drain_step c) = true
      · rw [if_pos he]
        exact drain_step_xact_list c
      · rw [if_neg he]
        rw [ih _ _]
        exact drain_step_xact_list c
    · rw [if_neg hc]

lemma checkpoint_go_xact_head (fuel : Nat) (c : producer_context) (w : Nat) :
    (checkpoint_go fuel c w).1.xact_head = c.xact_head := by
  induction fuel generalizing c w with
  | zero => rfl
  | succ fuel ih =>
    rw [checkpoint_go_succ]
    by_cases hc : drain_cond c
    · rw [if_pos hc]
      by_cases he : xact_list_empty (drain_step c) = true
      · rw [if_pos he]
        exact drain_step_xact_head c
      · rw [if_neg he]
        rw [ih _ _]
        exact drain_step_xact_head c
    · rw [if_neg hc]

lemma maybe_checkpoint_xact_list (c : producer_context) :
    (maybe_checkpoint c).xact_list = c.xact_list :=
  checkpoint_go_xact_list _ _ _

lemma maybe_checkpoint_xact_head (c : producer_context) :
    (maybe_checkpoint c).xact_head = c.xact_head :=
  checkpoint_go_xact_head _ _ _

lemma checkpoint_go_fuel_irrel :
    ∀ (n f₁ f₂ : Nat) (c : producer_context) (w : Nat),
      c.xact_head < XACT_LIST_LEN → c.xact_tail < XACT_LIST_LEN →
      (if xact_list_length c = 0 then XACT_LIST_LEN else xact_list_length c) ≤ n →
      (if xact_list_length c = 0 then XACT_LIST_LEN else xact_list_length c) ≤ f₁ →
      (if xact_list_length c = 0 then XACT_LIST_LEN else xact_list_length c) ≤ f₂ →
      checkpoint_go f₁ c w = checkpoint_go f₂ c w := by
  intro n
  induction n with
  | zero =>
    intro f₁ f₂ c w hh ht hn h1 h2
    exfalso
    by_cases h0 : xact_list_length c = 0
    · rw [if_pos h0, XACT_LIST_LEN_eq] at hn
      omega
    · rw [if_neg h0] at hn
      omega
  | succ n ih =>
    intro f₁ f₂ c w hh ht hn h1 h2
    have hone : 1 ≤ (if xact_list_length c = 0 then XACT_LIST_LEN else xact_list_length c) := by
      by_cases h0 : xact_list_length c = 0
      · rw [if_pos h0, XACT_LIST_LEN_eq]
        omega
      · rw [if_neg h0]
        omega
    obtain ⟨k₁, rfl⟩ : ∃ k, f₁ = k + 1 := ⟨f₁ - 1, by omega⟩
    obtain ⟨k₂, rfl⟩ : ∃ k, f₂ = k + 1 := ⟨f₂ - 1, by omega⟩
    rw [checkpoint_go_succ, checkpoint_go_succ]
    by_cases hc : drain_cond c
    · rw [if_pos hc, if_pos hc]
      by_cases he : xact_list_empty (drain_step c) = true
      · rw [if_pos he, if_pos he]
      · rw [if_neg he, if_neg he]
        have hh' : (drain_step c).xact_head < XACT_LIST_LEN := by
          rw [drain_step_xact_head]
          exact hh
        have ht' : (drain_step c).xact_tail < XACT_LIST_LEN := by
          rw [drain_step_xact_tail]
          exact Nat.mod_lt _ (by decide)
        have hne : xact_list_length (drain_step c) ≠ 0 := by
          intro h
          apply he
          unfold xact_list_empty
          rw [h]
          rfl
        have hlen := xact_list_length_drain_step c hh ht
        have hlt := xact_list_length_lt c
        apply ih
        · exact hh'
        · exact ht'
        · rw [if_neg hne, hlen]
          by_cases h0 : xact_list_length c = 0
          · rw [if_pos h0]
            rw [if_pos h0, XACT_LIST_LEN_eq] at hn
            rw [XACT_LIST_LEN_eq]
            omega
          · rw [if_neg h0]
            rw [if_neg h0] at hn
            omega
        · rw [if_neg hne, hlen]
          by_cases h0 : xact_list_length c = 0
          · rw [if_pos h0]
            rw [if_pos h0, XACT_LIST_LEN_eq] at h1
            rw [XACT_LIST_LEN_eq]
            omega
          · rw [if_neg h0]
            rw [if_neg h0] at h1
            omega
        · rw [if_neg hne, hlen]
          by_cases h0 : xact_list_length c = 0
          · rw [if_pos h0]
            rw [if_pos h0, XACT_LIST_LEN_eq] at h2
            rw [XACT_LIST_LEN_eq]
            omega
          · rw [if_neg h0]
            rw [if_neg h0] at h2
            omega
    · rw [if_neg hc, if_neg hc]

lemma maybe_checkpoint_fix (c : producer_context)
    (hh : c.xact_head < XACT_LIST_LEN) (ht : c.xact_tail < XACT_LIST_LEN) :
    maybe_checkpoint c =
      if drain_cond c then
        if xact_list_empty (drain_step c) then drain_step c
        else maybe_checkpoint (drain_step c)
      else c := by
  have start : maybe_checkpoint c = (checkpoint_go (1000 + 1) c 0).1 := rfl
  rw [start, checkpoint_go_succ]
  by_cases hc : drain_cond c
  · rw [if_pos hc, if_pos hc]
    by_cases he : xact_list_empty (drain_step c) = true
    · rw [if_pos he, if_pos he]
    · rw [if_neg he, if_neg he]
      have hh' : (drain_step c).xact_head < XACT_LIST_LEN := by
        rw [drain_step_xact_head]
        exact hh
      have ht' : (drain_step c).xact_tail < XACT_LIST_LEN := by
        rw [drain_step_xact_tail]
        exact Nat.mod_lt _ (by decide)
      have hne : xact_list_length (drain_step c) ≠ 0 := by
        intro h
        apply he
        unfold xact_list_empty
        rw [h]
        rfl
      have hlt := xact_list_length_lt (drain_step c)
      have hN : (if xact_list_length (drain_step c) = 0 then XACT_LIST_LEN
          else xact_list_length (drain_step c)) ≤ 1000 := by
        rw [if_neg hne]
        rw [XACT_LIST_LEN_eq] at hlt
        omega
      have hstep : maybe_checkpoint (drain_step c) =
          (checkpoint_go (1000 + 1) (drain_step c) 0).1 := rfl
      rw [hstep]
      rw [checkpoint_go_fst 1000 (drain_step c) (warn_upd c 0) 0]
      rw [checkpoint_go_fuel_irrel 1001 1000 (1000 + 1) (drain_step c) 0 hh' ht' (by omega) hN
        (by omega)]
  · rw [if_neg hc, if_neg hc]

/-! Helper lemmas about the send path and the delivery callback. -/

lemma inc_events_pending (s : sys_state) (i : Nat) :
    ((inc_events s i).ctx.xact_list i).pending_events =
      (s.ctx.xact_list i).pending_events + 1 := by
  simp [inc_events, upd_slot]

lemma inc_events_recvd (s : sys_state) (i : Nat) :
    ((inc_events s i).ctx.xact_list i).recvd_events =
      (s.ctx.xact_list i).recvd_events + 1 := by
  simp [inc_events, upd_slot]

lemma inc_events_inflight (s : sys_state) (i : Nat) :
    (inc_events s i).inflight = s.inflight := rfl

lemma inc_events_head (s : sys_state) (i : Nat) :
    (inc_events s i).ctx.xact_head = s.ctx.xact_head := rfl

lemma dec_pending_at (c : producer_context) (i : Nat) :
    ((dec_pending c i).xact_list i).pending_events =
      (c.xact_list i).pending_events - 1 := by
  simp [dec_pending, upd_slot]

lemma dec_pending_other (c : producer_context) (i j : Nat) (h : j ≠ i) :
    (dec_pending c i).xact_list j = c.xact_list j := by
  simp [dec_pending, upd_slot, h]

lemma ack_envelope_ctx_list (s : sys_state) (i : Nat) :
    (ack_envelope s i).ctx.xact_list = (dec_pending s.ctx i).xact_list := by
  show (maybe_checkpoint (dec_pending s.ctx i)).xact_list = _
  exact maybe_checkpoint_xact_list _

lemma ack_envelope_inflight (s : sys_state) (i : Nat) :
    (ack_envelope s i).inflight = s.inflight.erase i := rfl

lemma deliver_reach_trans {a b c : sys_state} :
    deliver_reach a b → deliver_reach b c → deliver_reach a c := by
  intro h1
  induction h1 with
  | refl s => intro h2; exact h2
  | step s i t hi hrec ih => intro h2; exact .step s i _ hi (ih h2)

lemma deliver_reach_diff {a b : sys_state} (h : deliver_reach a b) :
    ∀ i, (b.ctx.xact_list i).pending_events - (b.inflight.count i : Int) =
      (a.ctx.xact_list i).pending_events - (a.inflight.count i : Int) := by
  induction h with
  | refl s => intro i; rfl
  | step s j t hj hrec ih =>
    intro i
    rw [ih i]
    rw [ack_envelope_ctx_list, ack_envelope_inflight]
    by_cases hij : i = j
    · subst hij
      rw [dec_pending_at]
      rw [List.count_erase_self]
      have hpos : 0 < s.inflight.count i := List.count_pos_iff.2 hj
      omega
    · rw [dec_pending_other s.ctx j i hij]
      rw [List.count_erase_of_ne hij]

lemma produce_loop_err :
    ∀ (outs : List produce_outcome) (bp : sys_state → sys_state) (s : sys_state)
      (m : kafka_message) (s' : sys_state) (ret : Int) (sent : Option kafka_message),
      (∀ u, deliver_reach u (bp u)) →
      produce_loop outs bp s m = .ok s' ret sent → ret ≠ 0 →
      sent = none ∧ deliver_reach s s' := by
  intro outs
  induction outs with
  | nil =>
    intro bp s m s' ret sent hbp hloop hret
    simp [produce_loop] at hloop
  | cons o rest ih =>
    intro bp s m s' ret sent hbp hloop hret
    cases o with
    | ok =>
      simp only [produce_loop] at hloop
      cases hloop
      exact absurd rfl hret
    | queue_full =>
      simp only [produce_loop] at hloop
      obtain ⟨h1, h2⟩ := ih bp (bp s) m s' ret sent hbp hloop hret
      exact ⟨h1, deliver_reach_trans (hbp s) h2⟩
    | err_other =>
      simp only [produce_loop] at hloop
      cases hloop
      exact ⟨rfl, .refl s⟩

lemma produce_loop_sent_msg :
    ∀ (outs : List produce_outcome) (bp : sys_state → sys_state) (s : sys_state)
      (m : kafka_message) (s' : sys_state) (ret : Int) (m' : kafka_message),
      produce_loop outs bp s m = .ok s' ret (some m') → m' = m := by
  intro outs
  induction outs with
  | nil =>
    intro bp s m s' ret m' hloop
    simp [produce_loop] at hloop
  | cons o rest ih =>
    intro bp s m s' ret m' hloop
    cases o with
    | ok =>
      simp only [produce_loop] at hloop
      cases hloop
      rfl
    | queue_full =>
      simp only [produce_loop] at hloop
      exact ih bp (bp s) m s' ret m' hloop
    | err_other =>
      simp only [produce_loop] at hloop
      cases hloop

lemma produce_loop_recvd :
    ∀ (outs : List produce_outcome) (bp : sys_state → sys_state) (s : sys_state)
      (m : kafka_message) (s' : sys_state) (ret : Int) (sent : Option kafka_message),
      (∀ u i, ((bp u).ctx.xact_list i).recvd_events = (u.ctx.xact_list i).recvd_events) →
      produce_loop outs bp s m = .ok s' ret sent →
      ∀ i, (s'.ctx.xact_list i).recvd_events = (s.ctx.xact_list i).recvd_events := by
  intro outs
  induction outs with
  | nil =>
    intro bp s m s' ret sent hbp hloop
    simp [produce_loop] at hloop
  | cons o rest ih =>
    intro bp s m s' ret sent hbp hloop
    cases o with
    | ok =>
      simp only [produce_loop] at hloop
      cases hloop
      intro i
      rfl
    | queue_full =>
      simp only [produce_loop] at hloop
      intro i
      rw [ih bp (bp s) m s' ret sent hbp hloop i]
      exact hbp s i
    | err_other =>
      simp only [produce_loop] at hloop
      cases hloop
      intro i
      rfl

lemma produce_loop_no_qf :
    ∀ (outs : List produce_outcome) (bp : sys_state → sys_state) (s : sys_state)
      (m : kafka_message) (s' : sys_state) (ret : Int) (sent : Option kafka_message),
      produce_outcome.queue_full ∉ outs →
      produce_loop outs bp s m = .ok s' ret sent → s'.ctx = s.ctx := by
  intro outs
  induction outs with
  | nil =>
    intro bp s m s' ret sent hqf hloop
    simp [produce_loop] at hloop
  | cons o rest ih =>
    intro bp s m s' ret sent hqf hloop
    cases o with
    | ok =>
      simp only [produce_loop] at hloop
      cases hloop
      rfl
    | queue_full =>
      exact absurd (List.mem_cons_self _ _) hqf
    | err_other =>
      simp only [produce_loop] at hloop
      cases hloop
      rfl

/-! Claim theorems. -/

/-- C4: the checkpointer, invoked after every commit event and every
successful delivery, advances from the tail exactly while the tail
slot satisfies pending_events == 0 and (commit_lsn > 0 or xid == 0);
for each drained slot it sets fsync_lsn to that slot's commit_lsn,
clears the snapshot-in-progress flag when xid == 0 and commit_lsn > 0,
advances the tail modulo XACT_LIST_LEN, and stops when the ring
becomes empty. Stated as the loop-fixpoint characterisation of
maybe_checkpoint over the per-slot effect drain_step. -/
theorem C4_checkpoint_drain_characterisation (c : producer_context)
    (hh : c.xact_head < XACT_LIST_LEN) (ht : c.xact_tail < XACT_LIST_LEN) :
    (¬ drain_cond c → maybe_checkpoint c = c) ∧
    (drain_cond c →
      maybe_checkpoint c =
        (if xact_list_empty (drain_step c) then drain_step c
         else maybe_checkpoint (drain_step c))) ∧
    (drain_step c).fsync_lsn = (c.xact_list c.xact_tail).commit_lsn ∧
    (drain_step c).xact_tail = (c.xact_tail + 1) % XACT_LIST_LEN ∧
    ((c.xact_list c.xact_tail).xid = 0 ∧ 0 < (c.xact_list c.xact_tail).commit_lsn →
      (drain_step c).taking_snapshot = false) := by
  refine ⟨?_, ?_, drain_step_fsync c, drain_step_xact_tail c, ?_⟩
  · intro hnc
    rw [maybe_checkpoint_fix c hh ht, if_neg hnc]
  · intro hc
    rw [maybe_checkpoint_fix c hh ht, if_pos hc]
  · intro hcl
    rw [drain_step_snapshot, if_pos hcl]

/-- C4 witness: the characterisation applied to a concrete context
whose tail transaction has committed with nothing pending. -/
theorem C4_witness :
    drain_cond ctx_commit ∧
    maybe_checkpoint ctx_commit =
      (if xact_list_empty (drain_step ctx_commit) then drain_step ctx_commit
       else maybe_checkpoint (drain_step ctx_commit)) :=
  ⟨by decide,
    (C4_checkpoint_drain_characterisation ctx_commit (by decide) (by decide)).2.1 (by decide)⟩

/-- C1 (amended): fsync_lsn is not monotone in general. Whenever the
checkpointer drains a tail slot whose commit_lsn is below the current
fsync_lsn, it logs the "Commits not in WAL order!" warning and then
still assigns fsync_lsn := commit_lsn, regressing it. -/
theorem C1_amended_checkpoint_warns_and_regresses (c : producer_context)
    (hh : c.xact_head < XACT_LIST_LEN) (ht : c.xact_tail < XACT_LIST_LEN)
    (hc : drain_cond c)
    (hreg : (c.xact_list c.xact_tail).commit_lsn < c.fsync_lsn) :
    1 ≤ checkpoint_warn_count c ∧
    (drain_step c).fsync_lsn < c.fsync_lsn ∧
    maybe_checkpoint c =
      (if xact_list_empty (drain_step c) then drain_step c
       else maybe_checkpoint (drain_step c)) := by
  refine ⟨?_, ?_, ?_⟩
  · have start : checkpoint_warn_count c = (checkpoint_go (1000 + 1) c 0).2 := rfl
    rw [start, checkpoint_go_succ, if_pos hc]
    have hw : warn_upd c 0 = 1 := by
      unfold warn_upd
      rw [if_pos hreg]
    by_cases he : xact_list_empty (drain_step c) = true
    · rw [if_pos he]
      simp [hw]
    · rw [if_neg he]
      calc 1 = warn_upd c 0 := hw.symm
        _ ≤ (checkpoint_go 1000 (drain_step c) (warn_upd c 0)).2 :=
            checkpoint_go_warn_le _ _ _
  · rw [drain_step_fsync]
    exact hreg
  · rw [maybe_checkpoint_fix c hh ht, if_pos hc]

/-- C1 witness: the amended behaviour at a concrete context whose tail
committed at LSN 50 while fsync_lsn is 100: a warning is logged and
the drained slot drags fsync_lsn down to 50. -/
theorem C1_amended_witness :
    (drain_cond ctx_regress ∧
      (ctx_regress.xact_list ctx_regress.xact_tail).commit_lsn < ctx_regress.fsync_lsn) ∧
    1 ≤ checkpoint_warn_count ctx_regress ∧
    (drain_step ctx_regress).fsync_lsn < ctx_regress.fsync_lsn :=
  ⟨⟨by decide, by decide⟩,
    (C1_amended_checkpoint_warns_and_regresses ctx_regress (by decide) (by decide) (by decide)
      (by decide)).1,
    (C1_amended_checkpoint_warns_and_regresses ctx_regress (by decide) (by decide) (by decide)
      (by decide)).2.1⟩

/-- C1 counterexample: a four-event sequence of begin/commit events
after which fsync_lsn has regressed from 100 to 50, refuting that
fsync_lsn is monotonically non-decreasing across every event sequence
and that the checkpointer does not regress it. -/
theorem C1_counterexample_fsync_regresses :
    (run_events env0 init_sys
        [.begin_txn 10 1, .commit_txn 100 1]).map (fun s => s.ctx.fsync_lsn) = some 100 ∧
    (run_events env0 init_sys
        [.begin_txn 10 1, .commit_txn 100 1, .begin_txn 110 2,
          .commit_txn 50 2]).map (fun s => s.ctx.fsync_lsn) = some 50 :=
  ⟨rfl, rfl⟩

/-- C2 counterexample: a send call that fails with the unknown-relation
error (return 1) at a concrete input, after which the head
transaction's recvd_events and pending_events are nevertheless 1,
refuting that the counters are incremented only when the enqueue
succeeds and that error paths increment nothing. -/
theorem C2_counterexample_counters_incremented_on_error :
    send_kafka_msg env0 init_sys 5 3 (some [1]) (some [2]) =
      .ok (inc_events init_sys 1000) 1 none ∧
    ((inc_events init_sys 1000).ctx.xact_list 1000).pending_events = 1 ∧
    ((inc_events init_sys 1000).ctx.xact_list 1000).recvd_events = 1 ∧
    (1 : Int) ≠ 0 :=
  ⟨rfl, by decide, by decide, by decide⟩

/-- C2 (amended): send_kafka_msg increments recvd_events and
pending_events on the head transaction unconditionally at entry,
before the relation lookup, the encoding and the enqueue; no path
rolls them back. recvd_events is incremented on every returning call
(delivery callbacks running during backpressure never touch
recvd_events, the hypothesis on bp); pending_events is likewise
incremented on every returning call on which backpressure does not run
(no queue-full outcome). -/
theorem C2_amended_counters_incremented_unconditionally
    (env : producer_env) (s : sys_state) (wal_pos relid : Nat) (key val : Option Bytes)
    (s' : sys_state) (ret : Int) (sent : Option kafka_message)
    (hbp : ∀ u i, ((env.bp u).ctx.xact_list i).recvd_events = (u.ctx.xact_list i).recvd_events)
    (hsend : send_kafka_msg env s wal_pos relid key val = .ok s' ret sent) :
    (s'.ctx.xact_list s.ctx.xact_head).recvd_events =
      (s.ctx.xact_list s.ctx.xact_head).recvd_events + 1 ∧
    (produce_outcome.queue_full ∉ env.outcomes →
      (s'.ctx.xact_list s.ctx.xact_head).pending_events =
        (s.ctx.xact_list s.ctx.xact_head).pending_events + 1) := by
  simp only [send_kafka_msg] at hsend
  by_cases h1 : env.lookup relid = false
  · rw [if_pos h1] at hsend
    cases hsend
    exact ⟨inc_events_recvd s _, fun _ => inc_events_pending s _⟩
  · rw [if_neg h1] at hsend
    by_cases h2 : s.ctx.output_format = format_t.undefined
    · rw [if_pos h2] at hsend
      cases hsend
    · rw [if_neg h2] at hsend
      by_cases h3 : env.enc_ret ≠ 0
      · rw [if_pos h3] at hsend
        cases hsend
        exact ⟨inc_events_recvd s _, fun _ => inc_events_pending s _⟩
      · rw [if_neg h3] at hsend
        constructor
        · rw [produce_loop_recvd env.outcomes env.bp (inc_events s s.ctx.xact_head) _ s' ret
            sent hbp hsend s.ctx.xact_head]
          exact inc_events_recvd s _
        · intro hqf
          have hctx := produce_loop_no_qf env.outcomes env.bp (inc_events s s.ctx.xact_head) _
            s' ret sent hqf hsend
          rw [hctx]
          exact inc_events_pending s _

/-- C2 witness: the amended statement applied to a concrete failing
send (single non-queue-full produce error) from the initial state. -/
theorem C2_amended_witness :
    ((inc_events init_sys 1000).ctx.xact_list init_sys.ctx.xact_head).recvd_events =
      (init_sys.ctx.xact_list init_sys.ctx.xact_head).recvd_events + 1 ∧
    ((inc_events init_sys 1000).ctx.xact_list init_sys.ctx.xact_head).pending_events =
      (init_sys.ctx.xact_list init_sys.ctx.xact_head).pending_events + 1 := by
  have h := C2_amended_counters_incremented_unconditionally env1 init_sys 2 3 (some [4]) none
    (inc_events init_sys 1000) (-1) none (fun _ _ => rfl) rfl
  exact ⟨h.1, h.2 (by decide)⟩

/-- C3: whenever send_kafka_msg returns a nonzero error (unknown
relation, encoder failure, or a non-queue-full produce error), the
head transaction's counters were already incremented and are never
rolled back: no envelope was enqueued for the failed event, the head
slot's pending_events exceeds its in-flight envelope count by one, and
along any further sequence of delivery callbacks pending_events stays
equal to the in-flight count plus one and hence strictly positive, so
the checkpointer predicate pending_events == 0 cannot become true for
that slot through delivery callbacks alone. -/
theorem C3_error_leaves_pending_unacknowledgeable
    (env : producer_env) (s : sys_state) (wal_pos relid : Nat) (key val : Option Bytes)
    (s' : sys_state) (ret : Int) (sent : Option kafka_message)
    (hbp : ∀ u, deliver_reach u (env.bp u))
    (hinv : (s.ctx.xact_list s.ctx.xact_head).pending_events =
      (s.inflight.count s.ctx.xact_head : Int))
    (hsend : send_kafka_msg env s wal_pos relid key val = .ok s' ret sent)
    (herr : ret ≠ 0) :
    sent = none ∧
    (s'.ctx.xact_list s.ctx.xact_head).pending_events =
      (s'.inflight.count s.ctx.xact_head : Int) + 1 ∧
    (∀ t, deliver_reach s' t →
      (t.ctx.xact_list s.ctx.xact_head).pending_events =
        (t.inflight.count s.ctx.xact_head : Int) + 1 ∧
      0 < (t.ctx.xact_list s.ctx.xact_head).pending_events) := by
  have hdiff1 : ((inc_events s s.ctx.xact_head).ctx.xact_list s.ctx.xact_head).pending_events -
      ((inc_events s s.ctx.xact_head).inflight.count s.ctx.xact_head : Int) = 1 := by
    rw [inc_events_pending, inc_events_inflight]
    omega
  simp only [send_kafka_msg] at hsend
  have hkey : sent = none ∧ deliver_reach (inc_events s s.ctx.xact_head) s' := by
    by_cases h1 : env.lookup relid = false
    · rw [if_pos h1] at hsend
      cases hsend
      exact ⟨rfl, .refl _⟩
    · rw [if_neg h1] at hsend
      by_cases h2 : s.ctx.output_format = format_t.undefined
      · rw [if_pos h2] at hsend
        cases hsend
      · rw [if_neg h2] at hsend
        by_cases h3 : env.enc_ret ≠ 0
        · rw [if_pos h3] at hsend
          cases hsend
          exact ⟨rfl, .refl _⟩
        · rw [if_neg h3] at hsend
          exact produce_loop_err _ _ _ _ _ _ _ hbp hsend herr
  obtain ⟨hsent, hreach⟩ := hkey
  have hdiff2 : (s'.ctx.xact_list s.ctx.xact_head).pending_events -
      (s'.inflight.count s.ctx.xact_head : Int) = 1 := by
    rw [deliver_reach_diff hreach s.ctx.xact_head]
    exact hdiff1
  refine ⟨hsent, by omega, ?_⟩
  intro t ht
  have hdiff3 := deliver_reach_diff ht s.ctx.xact_head
  rw [hdiff2] at hdiff3
  have hnn : (0 : Int) ≤ (t.inflight.count s.ctx.xact_head : Int) := Int.ofNat_nonneg _
  exact ⟨by omega, by omega⟩

/-- C3 witness: the property applied to a concrete failing send (a
single non-queue-full produce error) from the initial state. -/
theorem C3_witness :
    ((-1 : Int) ≠ 0) ∧
    ((inc_events init_sys 1000).ctx.xact_list init_sys.ctx.xact_head).pending_events =
      ((inc_events init_sys 1000).inflight.count init_sys.ctx.xact_head : Int) + 1 := by
  have h := C3_error_leaves_pending_unacknowledgeable env1 init_sys 1 2 (some [1]) (some [2])
    (inc_events init_sys 1000) (-1) none (fun u => deliver_reach.refl u) (by decide) rfl
    (by decide)
  exact ⟨by decide, h.2.1⟩

/-- C5: in the delivery callback, success decrements the envelope's
transaction's pending_events and invokes the checkpointer; a failure
under the "log" policy is treated as acknowledged (same decrement and
checkpoint); a failure under the "exit" policy terminates the process;
and on every path on which the callback returns, the envelope is
consumed (freed), leaving the in-flight multiset. -/
theorem C5_deliver_callback_behaviour (s : sys_state) (i : Nat) :
    on_deliver_msg s i true = .next (ack_envelope s i) ∧
    (s.ctx.error_policy = .log → on_deliver_msg s i false = .next (ack_envelope s i)) ∧
    (s.ctx.error_policy = .exit → on_deliver_msg s i false = .fatal) ∧
    ((ack_envelope s i).ctx.xact_list i).pending_events =
      (s.ctx.xact_list i).pending_events - 1 ∧
    (ack_envelope s i).inflight = s.inflight.erase i := by
  refine ⟨rfl, ?_, ?_, ?_, rfl⟩
  · intro hp
    simp [on_deliver_msg, hp]
  · intro hp
    simp [on_deliver_msg, hp]
  · rw [ack_envelope_ctx_list, dec_pending_at]

/-- C5 witness: a failed delivery under the "log" policy at a concrete
state with one in-flight envelope is acknowledged, and the decrement
survives the checkpointer. -/
theorem C5_witness :
    sys_log.ctx.error_policy = error_policy_t.log ∧
    on_deliver_msg sys_log 0 false = .next (ack_envelope sys_log 0) ∧
    ((ack_envelope sys_log 0).ctx.xact_list 0).pending_events =
      (sys_log.ctx.xact_list 0).pending_events - 1 :=
  ⟨rfl, (C5_deliver_callback_behaviour sys_log 0).2.1 rfl,
    (C5_deliver_callback_behaviour sys_log 0).2.2.2.1⟩

/-- C6 counterexample: feeding a non-zero xid as the very first
transaction, with no prior snapshot, is not fatal: on_begin_txn
accepts it, refuting the claim's second half. -/
theorem C6_counterexample_nonzero_first_xid_not_fatal :
    (on_begin_txn 1 id init_producer_ctx 5 1).is_fatal = false := rfl

/-- C6 (amended): begin with xid == 0 fails fatally exactly when the
ring is not (empty with tail == 0); a begin with non-zero xid performs
no snapshot-priority check at all and is never fatal, in particular a
non-zero xid as the first transaction is accepted. -/
theorem C6_amended_snapshot_guard (fuel : Nat) (bp : producer_context → producer_context)
    (c : producer_context) (wal_pos xid : Nat) :
    (xid = 0 → ¬(c.xact_tail = 0 ∧ xact_list_empty c = true) →
      on_begin_txn fuel bp c wal_pos xid = .fatal) ∧
    (xid = 0 → c.xact_tail = 0 → xact_list_empty c = true →
      (on_begin_txn fuel bp c wal_pos xid).is_fatal = false) ∧
    (xid ≠ 0 → (on_begin_txn fuel bp c wal_pos xid).is_fatal = false) := by
  refine ⟨?_, ?_, ?_⟩
  · intro h0 hguard
    unfold on_begin_txn
    rw [if_pos ⟨h0, hguard⟩]
  · intro h0 ht he
    unfold on_begin_txn
    rw [if_neg (by intro hcon; exact hcon.2 ⟨ht, he⟩)]
    cases hbw : begin_wait_loop fuel bp c with
    | none => rfl
    | some c' => rfl
  · intro h0
    unfold on_begin_txn
    rw [if_neg (fun hcon => h0 hcon.1)]
    cases hbw : begin_wait_loop fuel bp c with
    | none => rfl
    | some c' => rfl

/-- C6 witness: the amended guard at concrete inputs: a snapshot begin
on a non-empty ring is fatal, and a non-zero first xid is accepted. -/
theorem C6_amended_witness :
    on_begin_txn 1 id ctx_commit 9 0 = begin_res.fatal ∧
    (on_begin_txn 2 id init_producer_ctx 8 7).is_fatal = false :=
  ⟨(C6_amended_snapshot_guard 1 id ctx_commit 9 0).1 rfl (by decide),
    (C6_amended_snapshot_guard 2 id init_producer_ctx 8 7).2.2 (by decide)⟩

/-- C7: the keepalive callback returns the sync-pending code exactly
when the transaction ring is non-empty and success (0) exactly when it
is empty; it reads the ring and mutates nothing, which the embedding
renders by returning only the code. -/
theorem C7_keepalive_sync_pending_iff_nonempty (c : producer_context) (wal_pos : Nat) :
    (on_keepalive c wal_pos = 0 ↔ xact_list_empty c = true) ∧
    (on_keepalive c wal_pos = FRAME_READER_SYNC_PENDING ↔ xact_list_empty c = false) := by
  unfold on_keepalive
  by_cases he : xact_list_empty c = true
  · rw [if_pos he]
    constructor
    · exact ⟨fun _ => he, fun _ => rfl⟩
    · constructor
      · intro h0
        exact absurd h0 (by decide)
      · intro hf
        rw [he] at hf
        exact absurd hf (by decide)
  · rw [if_neg he]
    have hf : xact_list_empty c = false := by
      cases hb : xact_list_empty c
      · rfl
      · exact absurd hb he
    constructor
    · constructor
      · intro h0
        exact absurd h0 (by decide)
      · intro h1
        exact absurd h1 he
    · exact ⟨fun _ => hf, fun _ => rfl⟩

/-- C7 witness: the keepalive code at an empty and at a non-empty
concrete ring. -/
theorem C7_witness :
    on_keepalive init_producer_ctx 3 = 0 ∧
    on_keepalive ctx_commit 4 = FRAME_READER_SYNC_PENDING :=
  ⟨(C7_keepalive_sync_pending_iff_nonempty init_producer_ctx 3).1.mpr (by decide),
    (C7_keepalive_sync_pending_iff_nonempty ctx_commit 4).2.mpr (by decide)⟩

/-- Characterisation of the begin backpressure loop: a successful exit
is the first non-full iterate of bp, with every earlier iterate
full. -/
lemma begin_wait_loop_zero (bp : producer_context → producer_context) (c : producer_context) :
    begin_wait_loop 0 bp c = if xact_list_full c then none else some c := rfl

lemma begin_wait_loop_succ (fuel : Nat) (bp : producer_context → producer_context)
    (c : producer_context) :
    begin_wait_loop (fuel + 1) bp c =
      if xact_list_full c then begin_wait_loop fuel bp (bp c) else some c := rfl

lemma begin_wait_loop_spec :
    ∀ (fuel : Nat) (bp : producer_context → producer_context) (c c' : producer_context),
      begin_wait_loop fuel bp c = some c' →
      xact_list_full c' = false ∧
      ∃ k, k ≤ fuel ∧ c' = bp^[k] c ∧ ∀ j < k, xact_list_full (bp^[j] c) = true := by
  intro fuel
  induction fuel with
  | zero =>
    intro bp c c' h
    rw [begin_wait_loop_zero] at h
    by_cases hf : xact_list_full c = true
    · rw [if_pos hf] at h
      cases h
    · rw [if_neg hf] at h
      cases h
      refine ⟨?_, 0, Nat.le_refl 0, rfl, fun j hj => absurd hj (Nat.not_lt_zero j)⟩
      cases hb : xact_list_full c
      · rfl
      · exact absurd hb hf
  | succ fuel ih =>
    intro bp c c' h
    rw [begin_wait_loop_succ] at h
    by_cases hf : xact_list_full c = true
    · rw [if_pos hf] at h
      obtain ⟨hfull, k, hk, hck, hall⟩ := ih bp (bp c) c' h
      refine ⟨hfull, k + 1, by omega, ?_, ?_⟩
      · rw [Function.iterate_succ_apply]
        exact hck
      · intro j hj
        cases j with
        | zero => simpa using hf
        | succ j =>
          rw [Function.iterate_succ_apply]
          exact hall j (by omega)
    · rw [if_neg hf] at h
      cases h
      refine ⟨?_, 0, by omega, rfl, fun j hj => absurd hj (Nat.not_lt_zero j)⟩
      cases hb : xact_list_full c
      · rfl
      · exact absurd hb hf

/-- C8: the ring has capacity XACT_LIST_LEN = 1000 in-flight slots
plus one sentinel, its length is (XACT_LIST_LEN + head + 1 - tail) mod
XACT_LIST_LEN, it is empty exactly when that length is 0 and full
exactly when it is XACT_LIST_LEN - 1; appending at the head when not
full grows the length by one; and on_begin_txn drives the
backpressure routine exactly while the ring is full before appending
at the head of the first non-full state. -/
theorem C8_ring_length_and_backpressure (c : producer_context) (x wal_pos fuel : Nat)
    (bp : producer_context → producer_context) :
    XACT_LIST_LEN = MAX_IN_FLIGHT_TRANSACTIONS + 1 ∧
    MAX_IN_FLIGHT_TRANSACTIONS = 1000 ∧
    xact_list_length c = (XACT_LIST_LEN + c.xact_head + 1 - c.xact_tail) % XACT_LIST_LEN ∧
    (xact_list_empty c = true ↔ xact_list_length c = 0) ∧
    (xact_list_full c = true ↔ xact_list_length c = XACT_LIST_LEN - 1) ∧
    (xact_list_full c = false → c.xact_head < XACT_LIST_LEN → c.xact_tail < XACT_LIST_LEN →
      xact_list_length (append_txn c x) = xact_list_length c + 1) ∧
    (∀ c', begin_wait_loop fuel bp c = some c' →
      xact_list_full c' = false ∧
      ∃ k, k ≤ fuel ∧ c' = bp^[k] c ∧ ∀ j < k, xact_list_full (bp^[j] c) = true) ∧
    (∀ c', ¬(x = 0 ∧ ¬(c.xact_tail = 0 ∧ xact_list_empty c = true)) →
      begin_wait_loop fuel bp c = some c' →
      on_begin_txn fuel bp c wal_pos x = .ok (append_txn c' x)) := by
  refine ⟨rfl, rfl, rfl, ?_, ?_, ?_, ?_, ?_⟩
  · simp [xact_list_empty]
  · simp [xact_list_full]
  · intro hnf hh ht
    have hlen : xact_list_length c ≠ XACT_LIST_LEN - 1 := by
      intro h
      unfold xact_list_full at hnf
      rw [h] at hnf
      simp at hnf
    have hhead : (append_txn c x).xact_head = (c.xact_head + 1) % XACT_LIST_LEN := rfl
    have htail : (append_txn c x).xact_tail = c.xact_tail := rfl
    unfold xact_list_length at hlen ⊢
    rw [hhead, htail]
    rw [XACT_LIST_LEN_eq] at hlen hh ht ⊢
    omega
  · intro c' h
    exact begin_wait_loop_spec fuel bp c c' h
  · intro c' hguard hloop
    unfold on_begin_txn
    rw [if_neg hguard, hloop]

/-- C8 witness: the length and append behaviour at the concrete
initial ring, where the backpressure loop exits immediately. -/
theorem C8_witness :
    xact_list_full init_producer_ctx = false ∧
    xact_list_length (append_txn init_producer_ctx 7) =
      xact_list_length init_producer_ctx + 1 ∧
    on_begin_txn 0 id init_producer_ctx 3 7 = .ok (append_txn init_producer_ctx 7) := by
  have h := C8_ring_length_and_backpressure init_producer_ctx 7 3 0 id
  exact ⟨by decide, h.2.2.2.2.2.1 (by decide) (by decide) (by decide),
    h.2.2.2.2.2.2.2 init_producer_ctx (by decide) rfl⟩

/-- C10: a delete event whose key is nil returns success (0) without
enqueueing anything or touching any state; a delete event with a key
is sent as a keyed message whose value payload is nil, bound to the
head transaction's slot. -/
theorem C10_delete_row_behaviour (env : producer_env) (s : sys_state)
    (wal_pos relid : Nat) (k : Bytes) (oldv : Option Bytes) :
    on_delete_row env s wal_pos relid none oldv = .ok s 0 none ∧
    (∀ s' ret m, on_delete_row env s wal_pos relid (some k) oldv = .ok s' ret (some m) →
      m.val = none ∧ m.key = some (env.frame_key k) ∧ m.slot = s.ctx.xact_head) := by
  constructor
  · rfl
  · intro s' ret m hsend
    simp only [on_delete_row, send_kafka_msg] at hsend
    by_cases h1 : env.lookup relid = false
    · rw [if_pos h1] at hsend
      cases hsend
    · rw [if_neg h1] at hsend
      by_cases h2 : s.ctx.output_format = format_t.undefined
      · rw [if_pos h2] at hsend
        cases hsend
      · rw [if_neg h2] at hsend
        by_cases h3 : env.enc_ret ≠ 0
        · rw [if_pos h3] at hsend
          cases hsend
        · rw [if_neg h3] at hsend
          have hm := produce_loop_sent_msg env.outcomes env.bp (inc_events s s.ctx.xact_head)
            _ s' ret m hsend
          subst hm
          exact ⟨rfl, rfl, rfl⟩

/-- C10 witness: the delete behaviour at concrete inputs, with a
successful single-attempt enqueue for the keyed case. -/
theorem C10_witness :
    on_delete_row env2 init_sys 4 6 none none = .ok init_sys 0 none ∧
    ((⟨1000, 4, 6, some [9], none⟩ : kafka_message).val = none ∧
      (⟨1000, 4, 6, some [9], none⟩ : kafka_message).key = some (env2.frame_key [9]) ∧
      (⟨1000, 4, 6, some [9], none⟩ : kafka_message).slot = init_sys.ctx.xact_head) := by
  refine ⟨(C10_delete_row_behaviour env2 init_sys 4 6 [9] none).1, ?_⟩
  exact (C10_delete_row_behaviour env2 init_sys 4 6 [9] none).2 _ 0 _ rfl

/-! Helper lemmas for the topic-name computation. -/

lemma isPrefixOf_append_self : ∀ (a b : List Char), a.isPrefixOf (a ++ b) = true := by
  intro a
  induction a with
  | nil => intro b; exact List.isPrefixOf_nil_left
  | cons x xs ih =>
    intro b
    simp [List.isPrefixOf, ih]

lemma dropWhile_no (p : Char → Bool) (l : List Char) (h : ∀ ch ∈ l, p ch = false) :
    l.dropWhile p = l := by
  cases l with
  | nil => rfl
  | cons x xs =>
    rw [List.dropWhile_cons]
    simp [h x (List.mem_cons_self x xs)]

lemma takeWhile_all (p : Char → Bool) :
    ∀ l : List Char, (∀ ch ∈ l, p ch = true) → l.takeWhile p = l := by
  intro l
  induction l with
  | nil => intro h; rfl
  | cons x xs ih =>
    intro h
    rw [List.takeWhile_cons]
    simp [h x (List.mem_cons_self x xs),
      ih (fun ch hch => h ch (List.mem_cons_of_mem x hch))]

lemma sscanf_ns_match (gen pg : List Char) (hne : pg ≠ [])
    (hsp : ∀ ch ∈ pg, is_space_c ch = false) :
    sscanf_ns gen (gen ++ '.' :: pg) = some pg := by
  unfold sscanf_ns
  have hassoc : gen ++ '.' :: pg = (gen ++ ['.']) ++ pg := by simp
  have hpre : (gen ++ ['.']).isPrefixOf (gen ++ '.' :: pg) = true := by
    rw [hassoc]
    exact isPrefixOf_append_self _ _
  rw [if_pos hpre]
  have hdrop : (gen ++ '.' :: pg).drop (gen.length + 1) = pg := by
    rw [hassoc]
    exact List.drop_left' (by simp)
  have h1 : ((gen ++ '.' :: pg).drop (gen.length + 1)).dropWhile is_space_c = pg := by
    rw [hdrop]
    exact dropWhile_no is_space_c pg hsp
  simp only [h1]
  have hempty : pg.isEmpty = false := by
    cases pg with
    | nil => exact absurd rfl hne
    | cons x xs => rfl
  rw [hempty]
  simp
  exact hsp

lemma topic_name_some (gen table ns tok : List Char) (h : sscanf_ns gen ns = some tok) :
    topic_name_from_avro_schema gen table ns =
      if tok = "public".toList then table.take (TABLE_NAME_BUFFER_LENGTH - 1)
      else strncat_c (strncat_c tok ['.']) table := by
  unfold topic_name_from_avro_schema
  rw [h]

lemma topic_name_none (gen table ns : List Char) (h : sscanf_ns gen ns = none) :
    topic_name_from_avro_schema gen table ns = table.take (TABLE_NAME_BUFFER_LENGTH - 1) := by
  unfold topic_name_from_avro_schema
  rw [h]

lemma strncat_concat (pg table : List Char)
    (hlen : pg.length ≤ TABLE_NAME_BUFFER_LENGTH - 1) :
    strncat_c (strncat_c pg ['.']) table =
      (pg ++ '.' :: table).take (TABLE_NAME_BUFFER_LENGTH - 1) := by
  unfold strncat_c
  have hB : TABLE_NAME_BUFFER_LENGTH = 128 := rfl
  rw [hB] at hlen ⊢
  by_cases h127 : pg.length = 127
  · have hrhs : (pg ++ '.' :: table).take 127 = pg := by
      rw [← h127]
      exact List.take_left pg ('.' :: table)
    rw [hrhs]
    simp [h127]
  · have h126 : pg.length ≤ 126 := by omega
    have htake1 : ['.'].take (128 - pg.length - 1) = ['.'] := by
      apply List.take_of_length_le
      simp
      omega
    rw [htake1]
    have hlen1 : (pg ++ ['.']).length = pg.length + 1 := by simp
    rw [hlen1]
    have harith : 128 - (pg.length + 1) - 1 = 126 - pg.length := by omega
    rw [harith]
    rw [show pg ++ '.' :: table = (pg ++ ['.']) ++ table by simp]
    rw [List.take_append_eq_append_take]
    rw [List.take_of_length_le (l := pg ++ ['.']) (by simp; omega)]
    rw [hlen1]
    rw [show 127 - (pg.length + 1) = 126 - pg.length by omega]

/-- C9: for a schema namespace of the generated form
gen ++ "." ++ pg_schema (with a usable schema token: nonempty,
whitespace-free, fitting the name buffer), the topic name is the table
name when pg_schema is "public", and pg_schema ++ "." ++ table
otherwise; when the namespace fails to match the generated form with a
genuine literal mismatch (sscanf's matched == 0: the namespace neither
extends gen ++ "." nor is a prefix of it — on proper-prefix inputs
sscanf returns EOF and the C reads an uninitialised buffer, so those
inputs are excluded), the topic name is the table name; in each case
the result is clamped to TABLE_NAME_BUFFER_LENGTH bytes including the
terminator, i.e. at most TABLE_NAME_BUFFER_LENGTH - 1 characters. -/
theorem C9_topic_name_rule (gen pg table : List Char)
    (hne : pg ≠ [])
    (hsp : ∀ ch ∈ pg, is_space_c ch = false)
    (hlen : pg.length ≤ TABLE_NAME_BUFFER_LENGTH - 1) :
    (topic_name_from_avro_schema gen table (gen ++ '.' :: pg) =
      (if pg = "public".toList then table.take (TABLE_NAME_BUFFER_LENGTH - 1)
       else (pg ++ '.' :: table).take (TABLE_NAME_BUFFER_LENGTH - 1))) ∧
    (topic_name_from_avro_schema gen table (gen ++ '.' :: pg)).length ≤
      TABLE_NAME_BUFFER_LENGTH - 1 ∧
    (∀ ns, (gen ++ ['.']).isPrefixOf ns = false → ns.isPrefixOf (gen ++ ['.']) = false →
      topic_name_from_avro_schema gen table ns = table.take (TABLE_NAME_BUFFER_LENGTH - 1) ∧
      (topic_name_from_avro_schema gen table ns).length ≤ TABLE_NAME_BUFFER_LENGTH - 1) := by
  have hmain : topic_name_from_avro_schema gen table (gen ++ '.' :: pg) =
      (if pg = "public".toList then table.take (TABLE_NAME_BUFFER_LENGTH - 1)
       else (pg ++ '.' :: table).take (TABLE_NAME_BUFFER_LENGTH - 1)) := by
    rw [topic_name_some gen table _ pg (sscanf_ns_match gen pg hne hsp)]
    by_cases hpub : pg = "public".toList
    · rw [if_pos hpub, if_pos hpub]
    · rw [if_neg hpub, if_neg hpub]
      exact strncat_concat pg table hlen
  have hnone : ∀ ns, (gen ++ ['.']).isPrefixOf ns = false →
      topic_name_from_avro_schema gen table ns = table.take (TABLE_NAME_BUFFER_LENGTH - 1) := by
    intro ns hpre
    have hs : sscanf_ns gen ns = none := by
      unfold sscanf_ns
      rw [if_neg (by simp [hpre])]
    exact topic_name_none gen table ns hs
  refine ⟨hmain, ?_, ?_⟩
  · rw [hmain]
    by_cases hpub : pg = "public".toList
    · rw [if_pos hpub]
      exact List.length_take_le _ _
    · rw [if_neg hpub]
      exact List.length_take_le _ _
  · intro ns hpre _hpre2
    refine ⟨hnone ns hpre, ?_⟩
    rw [hnone ns hpre]
    exact List.length_take_le _ _

/-- C9 witness: the topic-name rule applied to concrete schema and
table names, giving "billing.invoices", to the "public" schema, giving
"users", and to a namespace that genuinely mismatches the generated
form (neither extending "bw." nor a prefix of it), giving "users". -/
theorem C9_witness :
    topic_name_from_avro_schema "bw".toList "invoices".toList
        ("bw".toList ++ '.' :: "billing".toList) =
      ("billing".toList ++ '.' :: "invoices".toList).take (TABLE_NAME_BUFFER_LENGTH - 1) ∧
    topic_name_from_avro_schema "bw".toList "users".toList
        ("bw".toList ++ '.' :: "public".toList) =
      "users".toList.take (TABLE_NAME_BUFFER_LENGTH - 1) ∧
    topic_name_from_avro_schema "bw".toList "users".toList "zz.other".toList =
      "users".toList.take (TABLE_NAME_BUFFER_LENGTH - 1) := by
  refine ⟨?_, ?_, ?_⟩
  · have h := (C9_topic_name_rule "bw".toList "billing".toList "invoices".toList
      (by decide) (by decide) (by decide)).1
    rw [h, if_neg (by decide)]
  · have h := (C9_topic_name_rule "bw".toList "public".toList "users".toList
      (by decide) (by decide) (by decide)).1
    rw [h, if_pos (by decide)]
  · exact ((C9_topic_name_rule "bw".toList "billing".toList "users".toList
      (by decide) (by decide) (by decide)).2.2 "zz.other".toList (by decide) (by decide)).1
